import Mathlib

/-!
Verification of the lesson-session progression engine of a gamified
language-learning application (Django project: `core/views.py`,
`core/models.py`, `core/utils/ai_helper.py`, `core/utils/achievements.py`).

The Python code is shallowly embedded: the per-exercise session status value
stored in `request.session['lesson_attempts'][lesson][exercise]` (an int 0/1
or one of the strings 'perfect'/'corrected'/'failed') becomes an inductive
`Status`; the profile model becomes a structure with explicit state-passing
versions of its methods; view handlers become pure functions on that state.
-/

namespace Duo

/-- The value stored per exercise in the session map: the Python code stores
the ints 0 (absent / never attempted) and 1 (first attempt made and wrong),
or one of the strings 'perfect', 'corrected', 'failed'. -/
inductive Status
  | unattempted
  | attemptedOnce
  | perfect
  | corrected
  | failed
deriving DecidableEq, Repr, Fintype

/-- Terminal statuses are exactly the string-valued ones ('perfect',
'corrected', 'failed'): no further submission continues their cycle. -/
def Status.isTerminal : Status → Bool
  | .perfect => true
  | .corrected => true
  | .failed => true
  | _ => false

/-- Function `views.exercise_play` lines 198-206: the stored value is read back as an
attempt count; a string value (a terminal status) is reset to 0 so the
exercise can be redone. -/
def attemptCountOf : Status → Nat
  | .unattempted => 0
  | .attemptedOnce => 1
  | .perfect => 0
  | .corrected => 0
  | .failed => 0

/-- Function `views.exercise_play` POST branch, lines 256-272 and 305-343: the attempt
count is incremented, then the new status is stored: first submission correct
→ 'perfect', later submission correct → 'corrected', first submission wrong →
the int 1 (retry allowed), later submission wrong → 'failed'. -/
def recordStatus (prior : Status) (isCorrect : Bool) : Status :=
  let n := attemptCountOf prior + 1
  if isCorrect then
    if n = 1 then .perfect else .corrected
  else
    if n = 1 then .attemptedOnce else .failed

/-- The (new status, attempt ordinal) pair produced by one POST submission,
as in the spec's `recordAttempt` contract. -/
def recordAttempt (prior : Status) (isCorrect : Bool) : Status × Nat :=
  (recordStatus prior isCorrect, attemptCountOf prior + 1)

/-- Run a sequence of POST submissions for one exercise against the session
store, starting from a given stored status. -/
def runCycle (s : Status) (subs : List Bool) : Status :=
  subs.foldl recordStatus s

/-- Rank of a status along the forward order 0 → 1 → terminal. -/
def Status.rank : Status → Nat
  | .unattempted => 0
  | .attemptedOnce => 1
  | _ => 2

/-- Function `views.lesson_complete` lines 395-408: the per-exercise final statuses of
one lesson cycle, each exercise given by its in-cycle submission list. -/
def cycleStatuses (cycle : List (List Bool)) : List Status :=
  cycle.map (runCycle .unattempted)

/-- Count of exercises ending 'perfect' (lesson_complete line 400). -/
def perfectCount (cycle : List (List Bool)) : Nat :=
  (cycleStatuses cycle).count .perfect

/-- Count of exercises ending 'corrected' (lesson_complete line 401). -/
def correctedCount (cycle : List (List Bool)) : Nat :=
  (cycleStatuses cycle).count .corrected

/-- Count of exercises ending 'failed' (lesson_complete line 402). -/
def failedCount (cycle : List (List Bool)) : Nat :=
  (cycleStatuses cycle).count .failed

/-- Score as computed by `score = total_correct = perfect_count + corrected_count`
(lesson_complete lines 404-408). -/
def lessonScore (cycle : List (List Bool)) : Nat :=
  perfectCount cycle + correctedCount cycle

/-- Number of exercises whose latest Attempt row of the cycle (the Attempt
log is append-only, `created_at` descending picks the last submission) has
`is_correct = True`. -/
def latestCorrectCount (cycle : List (List Bool)) : Nat :=
  cycle.countP (fun subs => subs.getLast? == some true)

/-- After any recorded submission the stored status is 'perfect' or
'corrected' exactly when that submission was correct. -/
lemma recordStatus_perfect_or_corrected (s : Status) (b : Bool) :
    ((recordStatus s b = .perfect ∨ recordStatus s b = .corrected) ↔ b = true) := by
  cases s <;> cases b <;> simp [recordStatus, attemptCountOf]

/-- The final status of a nonempty submission run is 'perfect' or 'corrected'
exactly when the last submission was correct. -/
lemma runCycle_latest (subs : List Bool) (s : Status) (hne : subs ≠ []) :
    ((runCycle s subs = .perfect ∨ runCycle s subs = .corrected) ↔
      subs.getLast? = some true) := by
  induction subs generalizing s with
  | nil => exact absurd rfl hne
  | cons b bs ih =>
    cases bs with
    | nil =>
      simp only [runCycle, List.foldl, List.getLast?_singleton, Option.some_inj]
      exact recordStatus_perfect_or_corrected s b
    | cons b' bs' =>
      have hne' : (b' :: bs') ≠ [] := by simp
      have := ih (s := recordStatus s b) hne'
      simp only [runCycle, List.foldl] at this ⊢
      rw [List.getLast?_cons_cons]
      exact this

/-- An empty run leaves the status 'unattempted'. -/
lemma runCycle_nil (s : Status) : runCycle s [] = s := rfl

/-! ## Profile model (`core/models.py`, `UserProfile` and related) -/

/-- Model `UserProfile` gamification state (`models.py` lines 148-170). Dates are
modelled as day numbers (`Int`), timestamps as `Int` instants; Python ints
are unbounded, hence `Int`. -/
structure Profile where
  hearts : Int
  maxHearts : Int
  gems : Int
  xp : Int
  streakDays : Int
  lastActiveDate : Option Int
  lastHeartRestore : Option Int
deriving DecidableEq, Repr

/-- Method `UserProfile.lose_heart` (models.py lines 175-179): deduct one heart,
minimum 0 (a no-op if `hearts` is not positive). -/
def loseHeart (p : Profile) : Profile :=
  if p.hearts > 0 then { p with hearts := p.hearts - 1 } else p

/-- Method `UserProfile.restore_hearts` (models.py lines 181-186): set hearts to the
maximum and stamp the restore time. -/
def restoreHearts (p : Profile) (now : Int) : Profile :=
  { p with hearts := p.maxHearts, lastHeartRestore := some now }

/-- Method `UserProfile.add_xp` (models.py lines 188-191). -/
def addXp (p : Profile) (amount : Int) : Profile :=
  { p with xp := p.xp + amount }

/-- Method `UserProfile.add_gems` (models.py lines 193-196). -/
def addGems (p : Profile) (amount : Int) : Profile :=
  { p with gems := p.gems + amount }

/-- Method `UserProfile.update_streak` (models.py lines 198-220): first activity
ever sets the streak to 1; a second activity the same day changes nothing;
activity on the day after the last one increments the streak; any longer gap
resets it to 1. -/
def updateStreak (p : Profile) (today : Int) : Profile :=
  match p.lastActiveDate with
  | none => { p with streakDays := 1, lastActiveDate := some today }
  | some d =>
    if d = today then p
    else if d = today - 1 then
      { p with streakDays := p.streakDays + 1, lastActiveDate := some today }
    else
      { p with streakDays := 1, lastActiveDate := some today }

/-- Function `views.restore_hearts_if_needed` (views.py lines 15-37): if a last active
date is recorded and its midnight is before today's midnight (i.e. the date
is an earlier day), restore hearts; with no last active date recorded, also
restore. Otherwise do nothing. -/
def restoreHeartsIfNeeded (p : Profile) (today now : Int) : Profile :=
  match p.lastActiveDate with
  | some d => if d < today then restoreHearts p now else p
  | none => restoreHearts p now

/-! ## Quest instances (`models.py` `UserDailyQuest`) -/

/-- A `UserDailyQuest` row together with its quest's `target_value`. -/
structure QuestState where
  progress : Int
  completed : Bool
  target : Int
deriving DecidableEq, Repr

/-- Method `UserDailyQuest.update_progress` (models.py lines 259-264): add the
increment, and mark completed once progress reaches the target (never
unmarks). -/
def updateProgress (q : QuestState) (increment : Int) : QuestState :=
  let prog := q.progress + increment
  { q with progress := prog,
           completed := if prog ≥ q.target then true else q.completed }

/-! ## Per-exercise submission handling (`views.exercise_play` POST branch) -/

/-- The profile/quest/status effect of one POST to `exercise_play`
(views.py lines 162-367) once the answer has been judged.  Entry first runs
`restore_hearts_if_needed`; then (lines 256-258) the attempt count is
incremented; a correct answer awards XP (10 first try, 5 on retry) unless in
practice mode, updates the day's earn-XP quest by the same amount outside
practice mode, and always calls `update_streak`; a wrong answer loses a
heart unless in practice mode.  The stored status is updated per
`recordStatus`. -/
def exercisePlayPost (practice : Bool) (today now : Int) (p : Profile)
    (xpQuest : Option QuestState) (prior : Status) (isCorrect : Bool) :
    Profile × Option QuestState × Status :=
  let p0 := restoreHeartsIfNeeded p today now
  let n := attemptCountOf prior + 1
  if isCorrect then
    let p1 := if practice then p0 else addXp p0 (if n = 1 then 10 else 5)
    let q1 := if practice then xpQuest
              else xpQuest.map (fun q => updateProgress q (if n = 1 then 10 else 5))
    let p2 := updateStreak p1 today
    (p2, q1, if n = 1 then .perfect else .corrected)
  else
    let p1 := if practice then p0 else loseHeart p0
    (p1, xpQuest, if n = 1 then .attemptedOnce else .failed)

/-- All POSTs of one exercise in sequence, starting from an unattempted
session entry. -/
def runExercise (practice : Bool) (today now : Int) (p : Profile)
    (xpQuest : Option QuestState) (subs : List Bool) :
    Profile × Option QuestState × Status :=
  subs.foldl
    (fun acc c => exercisePlayPost practice today now acc.1 acc.2.1 acc.2.2 c)
    (p, xpQuest, .unattempted)

/-- A whole lesson run: each exercise's submissions processed in order. -/
def runLessonCycle (practice : Bool) (today now : Int) (p : Profile)
    (xpQuest : Option QuestState) (cycle : List (List Bool)) :
    Profile × Option QuestState :=
  cycle.foldl
    (fun acc subs =>
      let r := runExercise practice today now acc.1 acc.2 subs
      (r.1, r.2.1))
    (p, xpQuest)

/-! ## Lesson completion (`views.lesson_complete`) -/

/-- A `LessonProgress` row (models.py lines 138-146). -/
structure ProgressRec where
  completed : Bool
  score : Int
  lastSeen : Int
deriving DecidableEq, Repr

/-- The durable state read and written by `lesson_complete`: the profile,
the (user, lesson) progress row if any, the quest instances looked up by
type (each `none` when no instance exists for the period), and the list of
achievement categories for which `check_and_award_achievements` gets invoked
during the call. -/
structure CompletionState where
  profile : Profile
  progress : Option ProgressRec
  xpQuest : Option QuestState
  lessonQuest : Option QuestState
  perfectQuest : Option QuestState
  weeklyWarrior : Option QuestState
  streakMaster : Option QuestState
  achievementChecks : List String
deriving DecidableEq, Repr

/-- Outcome of one request to `views.lesson_complete`: either the view runs
to completion, or it dies with an uncaught `AttributeError`.  Either way the
payload is the durable state at that point — Django runs in autocommit mode,
so every `save()` executed before the raise has already been committed. -/
inductive CompletionResult
  | ok (st : CompletionState)
  | attributeError (st : CompletionState)
deriving DecidableEq, Repr

/-- The durable state carried by a completion outcome. -/
def CompletionResult.state : CompletionResult → CompletionState
  | .ok st => st
  | .attributeError st => st

/-- Function `views.lesson_complete` (views.py lines 382-505).  Practice mode
is detected by an existing completed progress row; in that case only the
row's `last_seen` is updated.  On a first completion the progress row is
upserted with `completed = True` and the session-tally score, a 20 XP bonus
is awarded and fed to the earn-XP quest, the complete-lessons quest gains 1,
and the perfect-lesson quest gains 1 when every exercise ended 'perfect'.
The view then reads `DailyQuest.WEEKLY_WARRIOR` (line 460, inside
`if perfect_count == total_exercises:`) and `DailyQuest.STREAK_MASTER`
(line 471, inside `if profile.streak_days >= 7:`) — but models.py defines
neither constant (nor the `week_assigned`/`year_assigned` fields the same
filters use), so reaching either line raises an uncaught `AttributeError`:
the weekly-warrior and streak-master quests are never updated, and the four
`check_and_award_achievements` calls (lines 479-482, also inside the
streak branch, below the raise point) are unreachable, so
`achievementChecks` is empty on every path. -/
def lessonComplete (st : CompletionState) (cycle : List (List Bool))
    (totalExercises : Nat) (today now : Int) : CompletionResult :=
  let p0 := restoreHeartsIfNeeded st.profile today now
  let isPractice := match st.progress with
    | some lp => lp.completed
    | none => false
  let score : Int := (lessonScore cycle : Int)
  if isPractice then
    .ok { st with profile := p0,
                  progress := st.progress.map (fun lp => { lp with lastSeen := now }),
                  achievementChecks := [] }
  else
    let lp0 := st.progress.getD { completed := false, score := 0, lastSeen := now }
    let lp1 := { lp0 with score := score, completed := true, lastSeen := now }
    let p1 := addXp p0 20
    let xq := st.xpQuest.map (fun q => updateProgress q 20)
    let lq := st.lessonQuest.map (fun q => updateProgress q 1)
    let isPerfect := perfectCount cycle = totalExercises
    let pq := if isPerfect then st.perfectQuest.map (fun q => updateProgress q 1)
              else st.perfectQuest
    let committed : CompletionState :=
      { profile := p1, progress := some lp1, xpQuest := xq, lessonQuest := lq,
        perfectQuest := pq, weeklyWarrior := st.weeklyWarrior,
        streakMaster := st.streakMaster, achievementChecks := [] }
    if isPerfect then
      .attributeError committed
    else if p1.streakDays ≥ 7 then
      .attributeError committed
    else
      .ok committed

/-! ## Translation checking (`core/utils/ai_helper.py`) -/

/-- Verdict dict returned by `check_translation_with_ai`. -/
structure TransCheck where
  correct : Bool
  feedback : String
deriving DecidableEq, Repr

/-- Outcome of the external Gemini call inside `check_translation_with_ai`:
either a valid parsed JSON dict holding a `correct` value (its `feedback`
key possibly absent), or a failure (the call raised, the response was not
valid JSON, or the parsed value lacked the `correct` key — the code turns
the latter into a raised `ValueError`, caught by the same handler). -/
inductive AiResponse
  | failure
  | ok (correct : Bool) (feedback : Option String)
deriving DecidableEq, Repr

/-- Function `check_translation_with_ai` (ai_helper.py lines 136-208): on a valid
response, coerce `correct` to bool and default a missing `feedback` to
"Checked against expected answer."; on any failure, fall back to the exact
match `user_answer.lower().strip() == correct_answer.lower().strip()` with
that same fixed feedback string. -/
def checkTranslationWithAI (resp : AiResponse)
    (userAnswer correctAnswer : String) : TransCheck :=
  match resp with
  | .ok c fb => { correct := c, feedback := fb.getD "Checked against expected answer." }
  | .failure =>
      { correct := userAnswer.toLower.trim == correctAnswer.toLower.trim,
        feedback := "Checked against expected answer." }

/-! ## Multiple-choice judging (`views.exercise_play` lines 217-222) -/

/-- An `ExerciseChoice` row of this exercise (models.py lines 113-125). -/
structure ExerciseChoice where
  id : Nat
  isCorrect : Bool
deriving DecidableEq, Repr

/-- The `choice` field of the POST: absent, present but not a number (the
`pk=choice_id` lookup / `int(choice_id)` then raises `ValueError`), or a
well-formed id. -/
inductive ChoiceSubmission
  | missing
  | malformed
  | valid (id : Nat)
deriving DecidableEq, Repr

/-- views.py lines 217-222: a missing id leaves `is_correct = False`; a
well-formed id is looked up among this exercise's choices and the verdict is
`bool(selected_choice and selected_choice.is_correct)`; a non-numeric id
makes the primary-key lookup raise, which no handler catches. -/
def judgeMultipleChoice (choices : List ExerciseChoice)
    (sub : ChoiceSubmission) : Except Unit Bool :=
  match sub with
  | .missing => .ok false
  | .malformed => .error ()
  | .valid i =>
      match choices.find? (fun c => c.id == i) with
      | some c => .ok c.isCorrect
      | none => .ok false

/-! ## Achievement granting (`core/utils/achievements.py`) -/

/-- Function `award_achievement` (achievements.py lines 231-258) for one fixed
(user, achievement) pair: `rows` is the number of existing `UserAchievement`
rows for the pair (the `filter(...).first()` existence check).  If a row
exists, return `None` (no creation, no credit); otherwise create the row and
credit the achievement's XP then gem rewards to the profile.  The returned
flag is whether a new grant was created. -/
def awardAchievement (xpReward gemReward : Int) (rows : Nat) (p : Profile) :
    Nat × Profile × Bool :=
  if rows > 0 then (rows, p, false)
  else (rows + 1, addGems (addXp p xpReward) gemReward, true)

/-! ## Profile operation sequences (for the hearts invariant) -/

/-- Every operation in the codebase that can touch a profile's hearts (or
runs alongside them): the `UserProfile` methods, the view-level heart
restoration, and the two shop purchases (views.py lines 680-695). -/
inductive ProfileOp
  | loseHeartOp
  | restoreHeartsOp (now : Int)
  | addXpOp (n : Int)
  | addGemsOp (n : Int)
  | updateStreakOp (today : Int)
  | restoreIfNeededOp (today now : Int)
  | refillHeartsPurchase (now : Int)
  | streakFreezePurchase
deriving DecidableEq, Repr

/-- Apply one operation to a profile. -/
def applyOp (p : Profile) : ProfileOp → Profile
  | .loseHeartOp => loseHeart p
  | .restoreHeartsOp now => restoreHearts p now
  | .addXpOp n => addXp p n
  | .addGemsOp n => addGems p n
  | .updateStreakOp t => updateStreak p t
  | .restoreIfNeededOp t n => restoreHeartsIfNeeded p t n
  | .refillHeartsPurchase now =>
      if p.gems ≥ 350 then restoreHearts { p with gems := p.gems - 350 } now else p
  | .streakFreezePurchase =>
      if p.gems ≥ 200 then { p with gems := p.gems - 200 } else p

/-- Apply a sequence of operations. -/
def applyOps (p : Profile) (ops : List ProfileOp) : Profile :=
  ops.foldl applyOp p

/-- The spec's hearts invariant. -/
def HeartsInv (p : Profile) : Prop :=
  0 ≤ p.hearts ∧ p.hearts ≤ p.maxHearts

instance (p : Profile) : Decidable (HeartsInv p) := by
  unfold HeartsInv; infer_instance

/-- Practice-mode replay of an already-completed lesson followed by the
completion view: the whole durable effect of re-playing a lesson whose
`LessonProgress` row `lp` already has `completed = True` (the practice
branch of `lesson_complete` raises nothing, so the durable state is the
whole story). -/
def practiceReplay (p : Profile) (lp : ProgressRec) (t n : Int)
    (cycle : List (List Bool)) (total : Nat) : CompletionState :=
  (lessonComplete
    { profile := (runLessonCycle true t n p none cycle).1,
      progress := some lp, xpQuest := none, lessonQuest := none,
      perfectQuest := none, weeklyWarrior := none, streakMaster := none,
      achievementChecks := [] } cycle total t n).state

/-! ## Frame lemmas -/

/-- Heart restoration never touches XP, gems, streak or the last active
date. -/
lemma restoreHeartsIfNeeded_frame (p : Profile) (t n : Int) :
    (restoreHeartsIfNeeded p t n).xp = p.xp
    ∧ (restoreHeartsIfNeeded p t n).gems = p.gems
    ∧ (restoreHeartsIfNeeded p t n).streakDays = p.streakDays
    ∧ (restoreHeartsIfNeeded p t n).lastActiveDate = p.lastActiveDate := by
  unfold restoreHeartsIfNeeded restoreHearts
  split
  · split
    · exact ⟨rfl, rfl, rfl, rfl⟩
    · exact ⟨rfl, rfl, rfl, rfl⟩
  · exact ⟨rfl, rfl, rfl, rfl⟩

/-- The streak update never touches XP, gems or hearts. -/
lemma updateStreak_frame (p : Profile) (t : Int) :
    (updateStreak p t).xp = p.xp ∧ (updateStreak p t).gems = p.gems
    ∧ (updateStreak p t).hearts = p.hearts
    ∧ (updateStreak p t).maxHearts = p.maxHearts := by
  unfold updateStreak
  split
  · exact ⟨rfl, rfl, rfl, rfl⟩
  · split
    · exact ⟨rfl, rfl, rfl, rfl⟩
    · split
      · exact ⟨rfl, rfl, rfl, rfl⟩
      · exact ⟨rfl, rfl, rfl, rfl⟩

/-- One practice-mode POST never changes XP or gems and never touches the
earn-XP quest. -/
lemma exercisePlayPost_practice_frame (t n : Int) (p : Profile)
    (q : Option QuestState) (s : Status) (c : Bool) :
    (exercisePlayPost true t n p q s c).1.xp = p.xp
    ∧ (exercisePlayPost true t n p q s c).1.gems = p.gems
    ∧ (exercisePlayPost true t n p q s c).2.1 = q := by
  have hr := restoreHeartsIfNeeded_frame p t n
  have hs := updateStreak_frame (restoreHeartsIfNeeded p t n) t
  cases c
  · exact ⟨hr.1, hr.2.1, rfl⟩
  · exact ⟨hs.1.trans hr.1, hs.2.1.trans hr.2.1, rfl⟩

/-- Folding practice-mode POSTs over one exercise preserves XP, gems and the
quest instance. -/
lemma runExercise_fold_practice_frame (t n : Int) (subs : List Bool) :
    ∀ acc : Profile × Option QuestState × Status,
      (subs.foldl
        (fun acc c => exercisePlayPost true t n acc.1 acc.2.1 acc.2.2 c)
        acc).1.xp = acc.1.xp
      ∧ (subs.foldl
          (fun acc c => exercisePlayPost true t n acc.1 acc.2.1 acc.2.2 c)
          acc).1.gems = acc.1.gems
      ∧ (subs.foldl
          (fun acc c => exercisePlayPost true t n acc.1 acc.2.1 acc.2.2 c)
          acc).2.1 = acc.2.1 := by
  induction subs with
  | nil => intro acc; exact ⟨rfl, rfl, rfl⟩
  | cons c cs ih =>
    intro acc
    have hstep := exercisePlayPost_practice_frame t n acc.1 acc.2.1 acc.2.2 c
    have hrec := ih (exercisePlayPost true t n acc.1 acc.2.1 acc.2.2 c)
    simp only [List.foldl]
    exact ⟨hrec.1.trans hstep.1, hrec.2.1.trans hstep.2.1,
           hrec.2.2.trans hstep.2.2⟩

/-- A whole practice-mode lesson run preserves XP, gems and the quest
instance. -/
lemma runLessonCycle_practice_frame (t n : Int) (cycle : List (List Bool)) :
    ∀ acc : Profile × Option QuestState,
      (runLessonCycle true t n acc.1 acc.2 cycle).1.xp = acc.1.xp
      ∧ (runLessonCycle true t n acc.1 acc.2 cycle).1.gems = acc.1.gems
      ∧ (runLessonCycle true t n acc.1 acc.2 cycle).2 = acc.2 := by
  induction cycle with
  | nil => intro acc; exact ⟨rfl, rfl, rfl⟩
  | cons subs rest ih =>
    intro acc
    have hstep := runExercise_fold_practice_frame t n subs (acc.1, acc.2, .unattempted)
    have hrec := ih ((runExercise true t n acc.1 acc.2 subs).1,
                     (runExercise true t n acc.1 acc.2 subs).2.1)
    simp only [runLessonCycle, List.foldl] at hrec ⊢
    unfold runExercise at hstep hrec ⊢
    exact ⟨hrec.1.trans hstep.1, hrec.2.1.trans hstep.2.1,
           hrec.2.2.trans hstep.2.2⟩

/-- When the profile was already active today, heart restoration is a
no-op. -/
lemma restoreHeartsIfNeeded_today (p : Profile) (t n : Int)
    (h : p.lastActiveDate = some t) : restoreHeartsIfNeeded p t n = p := by
  unfold restoreHeartsIfNeeded
  rw [h]
  simp

/-- When the profile was already active today, the streak update is a
no-op. -/
lemma updateStreak_today (p : Profile) (t : Int)
    (h : p.lastActiveDate = some t) : updateStreak p t = p := by
  unfold updateStreak
  rw [h]
  simp

/-- When the profile was already active today, a practice-mode POST leaves
the profile untouched. -/
lemma exercisePlayPost_practice_today (t n : Int) (p : Profile)
    (q : Option QuestState) (s : Status) (c : Bool)
    (h : p.lastActiveDate = some t) :
    (exercisePlayPost true t n p q s c).1 = p := by
  unfold exercisePlayPost
  cases c
  · simp only [Bool.false_eq_true, if_false, if_true]
    exact restoreHeartsIfNeeded_today p t n h
  · simp only [if_true]
    rw [restoreHeartsIfNeeded_today p t n h, updateStreak_today p t h]

/-- Folding practice-mode POSTs leaves the profile of an already-active
user untouched. -/
lemma runExercise_fold_practice_today (t n : Int) (subs : List Bool) :
    ∀ acc : Profile × Option QuestState × Status,
      acc.1.lastActiveDate = some t →
      (subs.foldl
        (fun acc c => exercisePlayPost true t n acc.1 acc.2.1 acc.2.2 c)
        acc).1 = acc.1 := by
  induction subs with
  | nil => intro acc _; rfl
  | cons c cs ih =>
    intro acc h
    have hstep : (exercisePlayPost true t n acc.1 acc.2.1 acc.2.2 c).1 = acc.1 :=
      exercisePlayPost_practice_today t n acc.1 acc.2.1 acc.2.2 c h
    have hrec := ih (exercisePlayPost true t n acc.1 acc.2.1 acc.2.2 c)
      (by rw [hstep]; exact h)
    simp only [List.foldl]
    rw [hrec, hstep]

/-- A whole practice-mode lesson run leaves the profile of an
already-active user untouched. -/
lemma runLessonCycle_practice_today (t n : Int) (cycle : List (List Bool)) :
    ∀ acc : Profile × Option QuestState,
      acc.1.lastActiveDate = some t →
      (runLessonCycle true t n acc.1 acc.2 cycle).1 = acc.1 := by
  induction cycle with
  | nil => intro acc _; rfl
  | cons subs rest ih =>
    intro acc h
    have hstep := runExercise_fold_practice_today t n subs
      (acc.1, acc.2, .unattempted) h
    have hrec := ih ((runExercise true t n acc.1 acc.2 subs).1,
                     (runExercise true t n acc.1 acc.2 subs).2.1)
      (by unfold runExercise; rw [hstep]; exact h)
    simp only [runLessonCycle, List.foldl] at hrec ⊢
    unfold runExercise at hstep hrec ⊢
    rw [hrec, hstep]

/-! ## Counting lemmas -/

/-- Counting 'perfect' plus counting 'corrected' is counting
'perfect-or-corrected'. -/
lemma count_perfect_add_corrected (l : List Status) :
    l.count .perfect + l.count .corrected
      = l.countP (fun s => s == .perfect || s == .corrected) := by
  induction l with
  | nil => rfl
  | cons s l ih =>
    cases s <;>
      simp [List.count_cons, List.countP_cons, ih] <;> omega

/-- For a single exercise, the final stored status being 'perfect' or
'corrected' coincides with the latest in-cycle attempt being correct. -/
lemma runCycle_pc_eq_latest (subs : List Bool) :
    ((runCycle .unattempted subs == .perfect)
      || (runCycle .unattempted subs == .corrected))
      = (subs.getLast? == some true) := by
  cases subs with
  | nil => rfl
  | cons b bs =>
    have h := runCycle_latest (b :: bs) .unattempted (by simp)
    rw [Bool.eq_iff_iff]
    simp only [Bool.or_eq_true, beq_iff_eq]
    exact h

/-! ## Claim theorems -/

/-- C1: within one lesson cycle, recording an attempt follows the ordinal
table — first submission wrong gives AttemptedOnce (ordinal 1, retry still
possible), first correct gives Perfect, second correct gives Corrected,
second wrong gives Failed (terminal) — and any two submissions starting a
cycle that did not already end terminates it, so no exercise accumulates
more than two recorded submissions per cycle before terminating. -/
theorem c1_attempt_ordinal_table :
    (recordAttempt .unattempted false = (.attemptedOnce, 1)
      ∧ Status.isTerminal .attemptedOnce = false)
    ∧ recordAttempt .unattempted true = (.perfect, 1)
    ∧ recordAttempt .attemptedOnce true = (.corrected, 2)
    ∧ (recordAttempt .attemptedOnce false = (.failed, 2)
      ∧ Status.isTerminal .failed = true)
    ∧ (∀ b₁ b₂ : Bool,
        (recordStatus .unattempted b₁).isTerminal = false →
        (recordStatus (recordStatus .unattempted b₁) b₂).isTerminal = true) := by
  decide

/-- Witness for C1: a wrong-then-wrong cycle ends terminal after exactly two
submissions. -/
theorem c1_attempt_ordinal_table_witness :
    (recordStatus .unattempted false).isTerminal = false
    ∧ (recordStatus (recordStatus .unattempted false) false).isTerminal = true :=
  ⟨by decide, c1_attempt_ordinal_table.2.2.2.2 false false (by decide)⟩

/-- C4: the stored session status only moves forward along
0 → 1 → {Perfect, Corrected, Failed} (its rank strictly increases on every
submission from a non-terminal status), and a terminal status encountered by
a later request — navigation or a stale POST — is treated exactly as a reset
to 0: its attempt count reads as 0 and a submission against it behaves as
the first submission of a fresh cycle rather than silently extending the
finished one. -/
theorem c4_forward_transitions_and_reset :
    (∀ (s : Status) (b : Bool),
        s.isTerminal = false → (recordStatus s b).rank > s.rank)
    ∧ (∀ t : Status, t.isTerminal = true → attemptCountOf t = 0)
    ∧ (∀ (t : Status) (b : Bool), t.isTerminal = true →
        recordAttempt t b = recordAttempt .unattempted b) := by
  decide

/-- Witness for C4 at concrete statuses. -/
theorem c4_forward_transitions_and_reset_witness :
    (Status.isTerminal .attemptedOnce = false
      ∧ (recordStatus .attemptedOnce true).rank > Status.rank .attemptedOnce)
    ∧ (Status.isTerminal .perfect = true
      ∧ attemptCountOf .perfect = 0
      ∧ recordAttempt .perfect false = recordAttempt .unattempted false) :=
  ⟨⟨by decide, c4_forward_transitions_and_reset.1 .attemptedOnce true (by decide)⟩,
   ⟨by decide, c4_forward_transitions_and_reset.2.1 .perfect (by decide),
    c4_forward_transitions_and_reset.2.2 .perfect false (by decide)⟩⟩

/-- C5: for every completed lesson cycle, the recorded score equals the
number of exercises whose terminal status is Perfect or Corrected (Failed is
never counted), and equals the number of exercises whose latest Attempt row
of the cycle has `is_correct = True`. -/
theorem c5_score_equals_latest_correct (cycle : List (List Bool)) :
    lessonScore cycle
        = (cycleStatuses cycle).countP
            (fun s => s == .perfect || s == .corrected)
    ∧ lessonScore cycle = latestCorrectCount cycle := by
  have h1 : lessonScore cycle
      = (cycleStatuses cycle).countP
          (fun s => s == .perfect || s == .corrected) :=
    count_perfect_add_corrected _
  refine ⟨h1, h1.trans ?_⟩
  unfold cycleStatuses latestCorrectCount
  rw [List.countP_map]
  have hfun :
      ((fun s => s == Status.perfect || s == Status.corrected)
        ∘ runCycle .unattempted)
      = fun subs => subs.getLast? == some true := by
    funext subs
    exact runCycle_pc_eq_latest subs
  rw [hfun]

/-- C9: granting the same achievement twice (sequentially) creates exactly
one grant record and credits the reward exactly once; the second call
creates nothing, credits nothing, and reports no new grant. -/
theorem c9_double_grant_idempotent (xpReward gemReward : Int) (p : Profile) :
    (awardAchievement xpReward gemReward 0 p).1 = 1
    ∧ (awardAchievement xpReward gemReward 0 p).2.2 = true
    ∧ (awardAchievement xpReward gemReward 0 p).2.1.xp = p.xp + xpReward
    ∧ (awardAchievement xpReward gemReward 0 p).2.1.gems = p.gems + gemReward
    ∧ (awardAchievement xpReward gemReward
        (awardAchievement xpReward gemReward 0 p).1
        (awardAchievement xpReward gemReward 0 p).2.1).1 = 1
    ∧ (awardAchievement xpReward gemReward
        (awardAchievement xpReward gemReward 0 p).1
        (awardAchievement xpReward gemReward 0 p).2.1).2.1
        = (awardAchievement xpReward gemReward 0 p).2.1
    ∧ (awardAchievement xpReward gemReward
        (awardAchievement xpReward gemReward 0 p).1
        (awardAchievement xpReward gemReward 0 p).2.1).2.2 = false := by
  simp [awardAchievement, addXp, addGems]

/-- C10: the per-interaction heart-restoration check refills hearts to the
maximum exactly when the last active date is an earlier day than today or no
last active date is recorded; a profile already active today is left
completely unchanged. -/
theorem c10_daily_restoration (p : Profile) (today now : Int) :
    restoreHeartsIfNeeded p today now
      = (if p.lastActiveDate.all (fun d => decide (d < today))
         then restoreHearts p now else p)
    ∧ (p.lastActiveDate = some today → restoreHeartsIfNeeded p today now = p) := by
  constructor
  · cases h : p.lastActiveDate with
    | none => simp [restoreHeartsIfNeeded, h]
    | some d =>
      by_cases hd : d < today <;>
        simp [restoreHeartsIfNeeded, h, hd]
  · intro h
    exact restoreHeartsIfNeeded_today p today now h

/-- Restoration-if-needed keeps the hearts invariant and never lowers
hearts. -/
lemma restoreHeartsIfNeeded_hearts (p : Profile) (t n : Int)
    (h0 : 0 ≤ p.hearts) (h1 : p.hearts ≤ p.maxHearts) :
    0 ≤ (restoreHeartsIfNeeded p t n).hearts
    ∧ (restoreHeartsIfNeeded p t n).hearts ≤ (restoreHeartsIfNeeded p t n).maxHearts
    ∧ p.hearts ≤ (restoreHeartsIfNeeded p t n).hearts := by
  unfold restoreHeartsIfNeeded restoreHearts
  split
  · split
    · exact ⟨h0.trans h1, le_rfl, h1⟩
    · exact ⟨h0, h1, le_rfl⟩
  · exact ⟨h0.trans h1, le_rfl, h1⟩

/-- Each single profile operation keeps hearts within bounds. -/
lemma heartsInv_applyOp (p : Profile) (op : ProfileOp) (h : HeartsInv p) :
    HeartsInv (applyOp p op) := by
  obtain ⟨h0, h1⟩ := h
  cases op with
  | loseHeartOp =>
      show 0 ≤ (loseHeart p).hearts ∧ (loseHeart p).hearts ≤ (loseHeart p).maxHearts
      unfold loseHeart
      by_cases hp : p.hearts > 0
      · rw [if_pos hp]
        refine ⟨?_, ?_⟩ <;> simp <;> omega
      · rw [if_neg hp]
        exact ⟨h0, h1⟩
  | restoreHeartsOp now =>
      show 0 ≤ (restoreHearts p now).hearts
        ∧ (restoreHearts p now).hearts ≤ (restoreHearts p now).maxHearts
      refine ⟨?_, ?_⟩ <;> simp [restoreHearts] <;> omega
  | addXpOp n => exact ⟨h0, h1⟩
  | addGemsOp n => exact ⟨h0, h1⟩
  | updateStreakOp t =>
      have hf := updateStreak_frame p t
      show 0 ≤ (updateStreak p t).hearts
        ∧ (updateStreak p t).hearts ≤ (updateStreak p t).maxHearts
      rw [hf.2.2.1, hf.2.2.2]
      exact ⟨h0, h1⟩
  | restoreIfNeededOp t n =>
      have := restoreHeartsIfNeeded_hearts p t n h0 h1
      exact ⟨this.1, this.2.1⟩
  | refillHeartsPurchase now =>
      show 0 ≤ (if p.gems ≥ 350
                then restoreHearts { p with gems := p.gems - 350 } now else p).hearts
        ∧ (if p.gems ≥ 350
           then restoreHearts { p with gems := p.gems - 350 } now else p).hearts
          ≤ (if p.gems ≥ 350
             then restoreHearts { p with gems := p.gems - 350 } now else p).maxHearts
      by_cases hg : p.gems ≥ 350
      · rw [if_pos hg]
        refine ⟨?_, ?_⟩ <;> simp [restoreHearts] <;> omega
      · rw [if_neg hg]
        exact ⟨h0, h1⟩
  | streakFreezePurchase =>
      show 0 ≤ (if p.gems ≥ 200 then { p with gems := p.gems - 200 } else p).hearts
        ∧ (if p.gems ≥ 200 then { p with gems := p.gems - 200 } else p).hearts
          ≤ (if p.gems ≥ 200 then { p with gems := p.gems - 200 } else p).maxHearts
      by_cases hg : p.gems ≥ 200
      · rw [if_pos hg]
        refine ⟨?_, ?_⟩ <;> simp <;> omega
      · rw [if_neg hg]
        exact ⟨h0, h1⟩

/-- Any sequence of profile operations keeps hearts within bounds. -/
lemma heartsInv_applyOps (p : Profile) (ops : List ProfileOp)
    (h : HeartsInv p) : HeartsInv (applyOps p ops) := by
  induction ops generalizing p with
  | nil => exact h
  | cons op ops ih => exact ih (applyOp p op) (heartsInv_applyOp p op h)

/-- Only the heart-loss operation can lower hearts. -/
lemma hearts_decrease_only_lose (p : Profile) (op : ProfileOp)
    (h : HeartsInv p) (hdec : (applyOp p op).hearts < p.hearts) :
    op = .loseHeartOp := by
  obtain ⟨h0, h1⟩ := h
  cases op with
  | loseHeartOp => rfl
  | restoreHeartsOp now =>
      exfalso
      have he : (applyOp p (ProfileOp.restoreHeartsOp now)).hearts = p.maxHearts := rfl
      omega
  | addXpOp n =>
      exfalso
      have he : (applyOp p (ProfileOp.addXpOp n)).hearts = p.hearts := rfl
      omega
  | addGemsOp n =>
      exfalso
      have he : (applyOp p (ProfileOp.addGemsOp n)).hearts = p.hearts := rfl
      omega
  | updateStreakOp t =>
      exfalso
      have he : (applyOp p (ProfileOp.updateStreakOp t)).hearts = p.hearts :=
        (updateStreak_frame p t).2.2.1
      omega
  | restoreIfNeededOp t n =>
      exfalso
      have he : p.hearts ≤ (applyOp p (ProfileOp.restoreIfNeededOp t n)).hearts :=
        (restoreHeartsIfNeeded_hearts p t n h0 h1).2.2
      omega
  | refillHeartsPurchase now =>
      exfalso
      by_cases hg : p.gems ≥ 350
      · have he : (applyOp p (ProfileOp.refillHeartsPurchase now)).hearts = p.maxHearts := by
          show (if p.gems ≥ 350
                then restoreHearts { p with gems := p.gems - 350 } now else p).hearts
              = p.maxHearts
          rw [if_pos hg]
          rfl
        omega
      · have he : (applyOp p (ProfileOp.refillHeartsPurchase now)).hearts = p.hearts := by
          show (if p.gems ≥ 350
                then restoreHearts { p with gems := p.gems - 350 } now else p).hearts
              = p.hearts
          rw [if_neg hg]
        omega
  | streakFreezePurchase =>
      exfalso
      by_cases hg : p.gems ≥ 200
      · have he : (applyOp p ProfileOp.streakFreezePurchase).hearts = p.hearts := by
          show (if p.gems ≥ 200 then { p with gems := p.gems - 200 } else p).hearts
              = p.hearts
          rw [if_pos hg]
        omega
      · have he : (applyOp p ProfileOp.streakFreezePurchase).hearts = p.hearts := by
          show (if p.gems ≥ 200 then { p with gems := p.gems - 200 } else p).hearts
              = p.hearts
          rw [if_neg hg]
        omega

/-- C8: starting from a profile satisfying the hearts invariant, any
sequence of the code's profile operations keeps hearts within
[0, maxHearts]; the heart-loss operation is a no-op at 0 hearts; and no
operation other than heart loss ever lowers hearts. -/
theorem c8_hearts_bounds (p : Profile) (ops : List ProfileOp)
    (op : ProfileOp) (h : HeartsInv p) :
    HeartsInv (applyOps p ops)
    ∧ (p.hearts = 0 → applyOp p .loseHeartOp = p)
    ∧ ((applyOp p op).hearts < p.hearts → op = .loseHeartOp) :=
  ⟨heartsInv_applyOps p ops h,
   fun hz => by
     show loseHeart p = p
     unfold loseHeart
     rw [hz]
     simp,
   fun hdec => hearts_decrease_only_lose p op h hdec⟩

/-- Witness for C8 at a concrete profile and operation sequence. -/
theorem c8_hearts_bounds_witness :
    HeartsInv { hearts := 0, maxHearts := 5, gems := 400, xp := 0,
                streakDays := 0, lastActiveDate := none, lastHeartRestore := none }
    ∧ (HeartsInv (applyOps
        { hearts := 0, maxHearts := 5, gems := 400, xp := 0, streakDays := 0,
          lastActiveDate := none, lastHeartRestore := none }
        [.loseHeartOp, .refillHeartsPurchase 3, .loseHeartOp])
      ∧ (({ hearts := 0, maxHearts := 5, gems := 400, xp := 0, streakDays := 0,
            lastActiveDate := none, lastHeartRestore := none } : Profile).hearts = 0 →
          applyOp { hearts := 0, maxHearts := 5, gems := 400, xp := 0,
                    streakDays := 0, lastActiveDate := none,
                    lastHeartRestore := none } .loseHeartOp
            = { hearts := 0, maxHearts := 5, gems := 400, xp := 0, streakDays := 0,
                lastActiveDate := none, lastHeartRestore := none })
      ∧ ((applyOp { hearts := 0, maxHearts := 5, gems := 400, xp := 0,
                    streakDays := 0, lastActiveDate := none,
                    lastHeartRestore := none } (.restoreHeartsOp 3)).hearts
            < ({ hearts := 0, maxHearts := 5, gems := 400, xp := 0, streakDays := 0,
                 lastActiveDate := none, lastHeartRestore := none } : Profile).hearts
          → (ProfileOp.restoreHeartsOp 3) = .loseHeartOp)) :=
  ⟨by decide,
   c8_hearts_bounds _ [.loseHeartOp, .refillHeartsPurchase 3, .loseHeartOp]
     (.restoreHeartsOp 3) (by decide)⟩

/-- C2 counterexample: for a user last active yesterday, a single correct
practice-mode submission durably changes the profile's streak (3 → 4), so
the lesson's last-seen timestamp is not the only durable update of practice
mode, refuting the claim as stated. XP stays frozen even here. -/
theorem c2_counterexample :
    (runLessonCycle true 10 100
      { hearts := 5, maxHearts := 5, gems := 0, xp := 0, streakDays := 3,
        lastActiveDate := some 9, lastHeartRestore := none } none [[true]]).1.streakDays = 4
    ∧ ({ hearts := 5, maxHearts := 5, gems := 0, xp := 0, streakDays := 3,
         lastActiveDate := some 9, lastHeartRestore := none } : Profile).streakDays = 3
    ∧ (runLessonCycle true 10 100
        { hearts := 5, maxHearts := 5, gems := 0, xp := 0, streakDays := 3,
          lastActiveDate := some 9, lastHeartRestore := none } none [[true]]).1.xp = 0 := by
  decide

/-- C2 amended: replaying and re-completing an already-completed lesson in
practice mode never changes XP or gems, never runs achievement checks, and
only rewrites the progress row's last-seen timestamp (score and completed
are preserved); when the user was additionally already active today — so
that the daily heart restoration and the streak update are no-ops — the
entire profile is unchanged. -/
theorem c2_practice_mode_frame (p : Profile) (lp : ProgressRec) (t n : Int)
    (cycle : List (List Bool)) (total : Nat) (hlp : lp.completed = true) :
    (practiceReplay p lp t n cycle total).profile.xp = p.xp
    ∧ (practiceReplay p lp t n cycle total).profile.gems = p.gems
    ∧ (practiceReplay p lp t n cycle total).progress = some { lp with lastSeen := n }
    ∧ (practiceReplay p lp t n cycle total).achievementChecks = []
    ∧ (p.lastActiveDate = some t →
        (practiceReplay p lp t n cycle total).profile = p) := by
  have hframe := runLessonCycle_practice_frame t n cycle (p, none)
  have hr := restoreHeartsIfNeeded_frame (runLessonCycle true t n p none cycle).1 t n
  have hpractice :
      practiceReplay p lp t n cycle total
        = { profile := restoreHeartsIfNeeded (runLessonCycle true t n p none cycle).1 t n,
            progress := some { lp with lastSeen := n },
            xpQuest := none, lessonQuest := none, perfectQuest := none,
            weeklyWarrior := none, streakMaster := none,
            achievementChecks := [] } := by
    unfold practiceReplay lessonComplete CompletionResult.state
    simp [hlp]
  rw [hpractice]
  refine ⟨?_, ?_, rfl, rfl, ?_⟩
  · exact hr.1.trans hframe.1
  · exact hr.2.1.trans hframe.2.1
  · intro h
    have hcycle : (runLessonCycle true t n p none cycle).1 = p :=
      runLessonCycle_practice_today t n cycle (p, none) h
    rw [hcycle]
    exact restoreHeartsIfNeeded_today p t n h

/-- Witness for C2 amended, at a concrete profile active today. -/
theorem c2_practice_mode_frame_witness :
    ({ completed := true, score := 2, lastSeen := 50 } : ProgressRec).completed = true
    ∧ ((practiceReplay
          { hearts := 4, maxHearts := 5, gems := 7, xp := 30, streakDays := 2,
            lastActiveDate := some 10, lastHeartRestore := none }
          { completed := true, score := 2, lastSeen := 50 } 10 100 [[false, true]] 1).profile.xp = 30
      ∧ (practiceReplay
          { hearts := 4, maxHearts := 5, gems := 7, xp := 30, streakDays := 2,
            lastActiveDate := some 10, lastHeartRestore := none }
          { completed := true, score := 2, lastSeen := 50 } 10 100 [[false, true]] 1).profile.gems = 7
      ∧ (practiceReplay
          { hearts := 4, maxHearts := 5, gems := 7, xp := 30, streakDays := 2,
            lastActiveDate := some 10, lastHeartRestore := none }
          { completed := true, score := 2, lastSeen := 50 } 10 100 [[false, true]] 1).progress
          = some { completed := true, score := 2, lastSeen := 100 }
      ∧ (practiceReplay
          { hearts := 4, maxHearts := 5, gems := 7, xp := 30, streakDays := 2,
            lastActiveDate := some 10, lastHeartRestore := none }
          { completed := true, score := 2, lastSeen := 50 } 10 100 [[false, true]] 1).achievementChecks = []
      ∧ (({ hearts := 4, maxHearts := 5, gems := 7, xp := 30, streakDays := 2,
            lastActiveDate := some 10, lastHeartRestore := none } : Profile).lastActiveDate = some 10 →
          (practiceReplay
            { hearts := 4, maxHearts := 5, gems := 7, xp := 30, streakDays := 2,
              lastActiveDate := some 10, lastHeartRestore := none }
            { completed := true, score := 2, lastSeen := 50 } 10 100 [[false, true]] 1).profile
            = { hearts := 4, maxHearts := 5, gems := 7, xp := 30, streakDays := 2,
                lastActiveDate := some 10, lastHeartRestore := none })) :=
  ⟨rfl,
   c2_practice_mode_frame
     { hearts := 4, maxHearts := 5, gems := 7, xp := 30, streakDays := 2,
       lastActiveDate := some 10, lastHeartRestore := none }
     { completed := true, score := 2, lastSeen := 50 } 10 100 [[false, true]] 1 rfl⟩

/-- C3: evaluating the embedded `lesson_complete` shows how first
(non-practice) completions diverge from the claim.  A perfect first
completion commits the progress upsert (completed, score), the 20 XP bonus,
and the earn-XP, complete-lessons and perfect-lesson quest increments, then
dies with an uncaught `AttributeError` at views.py line 460
(`DailyQuest.WEEKLY_WARRIOR` does not exist in models.py): the
weekly-warrior quest is never incremented and the achievement evaluator is
never invoked.  A non-perfect completion with a streak of 7 dies the same
way at line 471 (`DailyQuest.STREAK_MASTER`), before the four
`check_and_award_achievements` calls below it.  A non-perfect completion
with a streak below 7 finishes, but skips the evaluator calls, which sit
inside the `streak_days >= 7` branch.  So on no first completion does the
program increment the weekly-warrior quest or trigger the Achievement
Evaluator for lesson, xp, quest, time — contradicting the claim on every
path. -/
theorem c3_completion_divergence :
    lessonComplete
        { profile := { hearts := 5, maxHearts := 5, gems := 0, xp := 0, streakDays := 0,
                       lastActiveDate := some 10, lastHeartRestore := none },
          progress := none,
          xpQuest := some { progress := 0, completed := false, target := 30 },
          lessonQuest := some { progress := 0, completed := false, target := 3 },
          perfectQuest := some { progress := 0, completed := false, target := 1 },
          weeklyWarrior := some { progress := 0, completed := false, target := 7 },
          streakMaster := none, achievementChecks := [] }
        [[true]] 1 10 100
      = .attributeError
          { profile := { hearts := 5, maxHearts := 5, gems := 0, xp := 20, streakDays := 0,
                         lastActiveDate := some 10, lastHeartRestore := none },
            progress := some { completed := true, score := 1, lastSeen := 100 },
            xpQuest := some { progress := 20, completed := false, target := 30 },
            lessonQuest := some { progress := 1, completed := false, target := 3 },
            perfectQuest := some { progress := 1, completed := true, target := 1 },
            weeklyWarrior := some { progress := 0, completed := false, target := 7 },
            streakMaster := none, achievementChecks := [] }
    ∧ lessonComplete
        { profile := { hearts := 5, maxHearts := 5, gems := 0, xp := 0, streakDays := 7,
                       lastActiveDate := some 10, lastHeartRestore := none },
          progress := none, xpQuest := none, lessonQuest := none,
          perfectQuest := none, weeklyWarrior := none,
          streakMaster := none, achievementChecks := [] }
        [[false, false]] 1 10 100
      = .attributeError
          { profile := { hearts := 5, maxHearts := 5, gems := 0, xp := 20, streakDays := 7,
                         lastActiveDate := some 10, lastHeartRestore := none },
            progress := some { completed := true, score := 0, lastSeen := 100 },
            xpQuest := none, lessonQuest := none, perfectQuest := none,
            weeklyWarrior := none, streakMaster := none, achievementChecks := [] }
    ∧ lessonComplete
        { profile := { hearts := 5, maxHearts := 5, gems := 0, xp := 0, streakDays := 0,
                       lastActiveDate := some 10, lastHeartRestore := none },
          progress := none, xpQuest := none, lessonQuest := none,
          perfectQuest := none, weeklyWarrior := none,
          streakMaster := none, achievementChecks := [] }
        [[false, false]] 1 10 100
      = .ok
          { profile := { hearts := 5, maxHearts := 5, gems := 0, xp := 20, streakDays := 0,
                         lastActiveDate := some 10, lastHeartRestore := none },
            progress := some { completed := true, score := 0, lastSeen := 100 },
            xpQuest := none, lessonQuest := none, perfectQuest := none,
            weeklyWarrior := none, streakMaster := none, achievementChecks := [] } := by
  decide

/-- C6 counterexample: when the semantic checker fails, the fallback verdict
carries the fixed, nonempty feedback string "Checked against expected
answer." — not an absence of feedback text — refuting the claim's "with no
feedback text" at this concrete failed checker call. -/
theorem c6_counterexample :
    (checkTranslationWithAI .failure "Hello" " hello").feedback
        = "Checked against expected answer."
    ∧ (checkTranslationWithAI .failure "Hello" " hello").feedback ≠ "" :=
  ⟨rfl, by
    intro h
    have h' : "Checked against expected answer." = "" := h
    exact absurd h' (by decide)⟩

/-- C6 amended: on checker failure or a malformed response the judge falls
back to a case-insensitive trimmed exact string match of the submitted text
against the canonical answer, with the fixed feedback text "Checked against
expected answer." (not an empty one), and no error reaches the learner —
the fallback is a total function returning an ordinary verdict. -/
theorem c6_checker_failure_fallback (resp : AiResponse)
    (userAnswer correctAnswer : String) (h : resp = .failure) :
    ((checkTranslationWithAI resp userAnswer correctAnswer).correct = true
      ↔ userAnswer.toLower.trim = correctAnswer.toLower.trim)
    ∧ (checkTranslationWithAI resp userAnswer correctAnswer).feedback
        = "Checked against expected answer." := by
  subst h
  exact ⟨by simp [checkTranslationWithAI], rfl⟩

/-- Witness for C6 amended, at a concrete failed checker call. -/
theorem c6_checker_failure_fallback_witness :
    ((AiResponse.failure : AiResponse) = .failure)
    ∧ (((checkTranslationWithAI .failure "el gato " "El gato").correct = true
        ↔ "el gato ".toLower.trim = "El gato".toLower.trim)
      ∧ (checkTranslationWithAI .failure "el gato " "El gato").feedback
          = "Checked against expected answer.") :=
  ⟨rfl, c6_checker_failure_fallback .failure "el gato " "El gato" rfl⟩

/-- C7 counterexample: a malformed (non-numeric) choice id makes the
multiple-choice judging path raise (the primary-key lookup / `int()` call
throws `ValueError`, caught nowhere), instead of yielding an incorrect
verdict — refuting "a missing or invalid choice id ... never raises an
error". -/
theorem c7_counterexample :
    judgeMultipleChoice [{ id := 1, isCorrect := true }] .malformed
      = .error () := rfl

/-- C7 amended: a missing choice id yields an incorrect verdict without
error; a well-formed choice id never raises and its verdict is correct
exactly when the id refers to a choice of this exercise with
`is_correct = True` (choice ids being unique); only a malformed
(non-numeric) id raises. -/
theorem c7_choice_judging (choices : List ExerciseChoice) (i : Nat)
    (hid : (choices.map ExerciseChoice.id).Nodup) :
    judgeMultipleChoice choices .missing = .ok false
    ∧ (judgeMultipleChoice choices (.valid i) = .ok true
        ↔ ∃ c ∈ choices, c.id = i ∧ c.isCorrect = true)
    ∧ (∃ b, judgeMultipleChoice choices (.valid i) = .ok b) := by
  refine ⟨rfl, ?_, ?_⟩
  · show (((match choices.find? (fun c => c.id == i) with
            | some c => Except.ok c.isCorrect
            | none => Except.ok false) : Except Unit Bool) = Except.ok true)
        ↔ ∃ c ∈ choices, c.id = i ∧ c.isCorrect = true
    cases hf : choices.find? (fun c => c.id == i) with
    | none =>
      constructor
      · intro hok
        exact absurd (Except.ok.inj hok) (by decide)
      · rintro ⟨c, hc, hci, -⟩
        have := List.find?_eq_none.mp hf c hc
        simp [hci] at this
    | some c =>
      have hp : c.id = i := by
        have := List.find?_some hf
        simpa using this
      have hmem : c ∈ choices := List.mem_of_find?_eq_some hf
      constructor
      · intro hok
        exact ⟨c, hmem, hp, Except.ok.inj hok⟩
      · rintro ⟨c', hc', hci', hcor'⟩
        have hcc : c' = c :=
          List.inj_on_of_nodup_map hid hc' hmem (by rw [hci', hp])
        show Except.ok c.isCorrect = Except.ok true
        rw [← hcc, hcor']
  · show ∃ b, (((match choices.find? (fun c => c.id == i) with
          | some c => Except.ok c.isCorrect
          | none => Except.ok false) : Except Unit Bool) = Except.ok b)
    cases hf : choices.find? (fun c => c.id == i) with
    | none => exact ⟨false, rfl⟩
    | some c => exact ⟨c.isCorrect, rfl⟩

/-- Witness for C7 amended at a concrete choice list. -/
theorem c7_choice_judging_witness :
    (([{ id := 1, isCorrect := false }, { id := 2, isCorrect := true }].map
        ExerciseChoice.id).Nodup)
    ∧ (judgeMultipleChoice
          [{ id := 1, isCorrect := false }, { id := 2, isCorrect := true }] .missing
          = .ok false
      ∧ (judgeMultipleChoice
            [{ id := 1, isCorrect := false }, { id := 2, isCorrect := true }] (.valid 2)
            = .ok true
          ↔ ∃ c ∈ [({ id := 1, isCorrect := false } : ExerciseChoice),
                   { id := 2, isCorrect := true }], c.id = 2 ∧ c.isCorrect = true)
      ∧ (∃ b, judgeMultipleChoice
            [{ id := 1, isCorrect := false }, { id := 2, isCorrect := true }] (.valid 2)
            = .ok b)) :=
  ⟨by decide,
   c7_choice_judging
     [{ id := 1, isCorrect := false }, { id := 2, isCorrect := true }] 2 (by decide)⟩

/-- Witness for C10 at a concrete profile already active today. -/
theorem c10_daily_restoration_witness :
    restoreHeartsIfNeeded
      { hearts := 2, maxHearts := 5, gems := 0, xp := 0, streakDays := 1,
        lastActiveDate := some 7, lastHeartRestore := none } 7 100
      = { hearts := 2, maxHearts := 5, gems := 0, xp := 0, streakDays := 1,
          lastActiveDate := some 7, lastHeartRestore := none } :=
  (c10_daily_restoration
    { hearts := 2, maxHearts := 5, gems := 0, xp := 0, streakDays := 1,
      lastActiveDate := some 7, lastHeartRestore := none } 7 100).2 rfl

end Duo
